import Mathlib

/-!
Verification of the terminal-clock program (`src/main.rs`).

The program is a single control loop.  We model it shallowly: every
externally visible terminal operation becomes an event in a trace, fallible
library calls become boolean/`Option` inputs supplied per call site, and
`main` becomes a function from those inputs to the produced trace together
with the process outcome.  Line numbers in doc comments refer to
`src/main.rs`.
-/

namespace TerminalClock

/-- Colors from `crossterm::style::Color`; the program only ever uses
`Color::Green` (line 102). -/
inductive TColor
  | green
  deriving DecidableEq

/-- Terminal effects the program issues, in the order they take effect.
`enableRaw`/`disableRaw` model `terminal::enable_raw_mode` /
`terminal::disable_raw_mode`; `hideCursor`/`showCursor` model
`cursor::Hide`/`cursor::Show`; `clearAll` models `Clear(ClearType::All)`;
`moveTo` models `cursor::MoveTo`; `printStyled` models
`PrintStyledContent`; `flushOut` models `stdout.flush()`; `sleepFor`
models `thread::sleep` with a duration in nanoseconds. -/
inductive Ev
  | enableRaw
  | hideCursor
  | clearAll
  | moveTo (col row : Nat)
  | printStyled (s : String) (c : TColor)
  | flushOut
  | showCursor
  | disableRaw
  | sleepFor (ns : Nat)
  deriving DecidableEq

/-- Line 83: `let ascii_art_height = ascii_art_lines.len() as u16;`.
The `as u16` cast truncates, hence the `% 65536`. -/
def ascii_art_height (ascii_art_lines : List String) : Nat :=
  ascii_art_lines.length % 65536

/-- Line 84:
`ascii_art_lines.iter().map(|line| line.len()).max().unwrap_or(0) as u16`.
`Iterator::max` yields `None` on an empty iterator, modelled by
`List.max?`; `unwrap_or(0)` is `Option.getD 0`; `as u16` truncates.
`line.len()` is the byte length of the line; the rendered art is ASCII,
where byte count and character count coincide, so `String.length`
models it. -/
def ascii_art_width (ascii_art_lines : List String) : Nat :=
  ((ascii_art_lines.map String.length).max?.getD 0) % 65536

/-- Line 90: `terminal_width.saturating_sub(ascii_art_width) / 2`.
`Nat` subtraction is saturating, matching `u16::saturating_sub`. -/
def start_col (terminal_width w : Nat) : Nat :=
  (terminal_width - w) / 2

/-- Line 91: `terminal_height.saturating_sub(ascii_art_height) / 2`. -/
def start_row (terminal_height h : Nat) : Nat :=
  (terminal_height - h) / 2

/-- The centering formula as the specification words it:
`max(0, (W − w) / 2)` over the integers, with truncating integer
division (`Int.tdiv`).  This definition follows the spec's words, to be
compared against `start_col`/`start_row`, which follow the source. -/
def centerSpec (W w : Nat) : Int :=
  max 0 (Int.tdiv ((W : Int) - (w : Int)) 2)

/-- Lines 98–104: starting at `start_row`, queue for every line a
`MoveTo(start_col, current_print_row)` followed by
`PrintStyledContent(line.with(Color::Green))`, incrementing
`current_print_row` by 1 between lines. -/
def paintLines (col : Nat) : Nat → List String → List Ev
  | _, [] => []
  | current_print_row, line :: rest =>
      Ev.moveTo col current_print_row ::
      Ev.printStyled line TColor.green ::
      paintLines col (current_print_row + 1) rest

/-- Lines 95–107: one paint cycle — queue `Clear(ClearType::All)`, queue
the positioned colored lines, then `stdout.flush()`. -/
def paintEvents (ascii_art_lines : List String) (col row : Nat) : List Ev :=
  Ev.clearAll :: (paintLines col row ascii_art_lines ++ [Ev.flushOut])

/-- Line 68: `Duration::from_secs(1)`, in nanoseconds. -/
def update_interval : Nat := 1000000000

/-- Lines 110–113: if the elapsed time is below the 1-second target the
loop sleeps `update_interval - elapsed`; otherwise it does not sleep. -/
def sleepEvents (elapsed : Nat) : List Ev :=
  if elapsed < update_interval then
    [Ev.sleepFor (update_interval - elapsed)]
  else []

/-- `crossterm::event::KeyCode`; variants other than `Char` are collapsed
into `other`, since the program only compares against `Char('c')`. -/
inductive KeyCode
  | Char (c : Char)
  | other
  deriving DecidableEq

/-- `crossterm::event::KeyModifiers` bit flags (the `bitflags` crate):
`SHIFT = 0b001`, `CONTROL = 0b010`, `ALT = 0b100`. -/
def KeyModifiers.SHIFT : Nat := 1

def KeyModifiers.CONTROL : Nat := 2

def KeyModifiers.ALT : Nat := 4

/-- `KeyModifiers::contains` from the `bitflags` crate:
`mods & flag == flag`, a superset test on the bit set. -/
def KeyModifiers.contains (mods flag : Nat) : Bool :=
  mods &&& flag == flag

/-- `crossterm::event::KeyEvent`, restricted to the fields the program
reads: `code` and `modifiers`. -/
structure KeyEvent where
  code : KeyCode
  modifiers : Nat
  deriving DecidableEq

/-- Line 47: `key_event.code == KeyCode::Char('c') &&
key_event.modifiers.contains(KeyModifiers::CONTROL)`. -/
def isInterruptKey (key_event : KeyEvent) : Bool :=
  key_event.code == KeyCode.Char 'c' &&
    KeyModifiers.contains key_event.modifiers KeyModifiers.CONTROL

/-- `crossterm::event::Event`; variants other than `Key` are collapsed
into `otherEvent`, since line 45 matches only `Event::Key`. -/
inductive CTEvent
  | Key (key_event : KeyEvent)
  | otherEvent
  deriving DecidableEq

/-- Outcome of one `event::poll(Duration::from_millis(100))` (line 44):
either no event became available within the bounded wait, or an event
is available and `event::read()` (line 45) returns it.  The `Err`
results of `poll`/`read` abort the watcher thread and are not part of
the claims. -/
inductive PollRes
  | timeout
  | avail (e : CTEvent)
  deriving DecidableEq

/-- Whether one poll outcome delivers the interrupt combination
(lines 44–47): an available `Event::Key` whose key event matches
Ctrl+C. -/
def isInterruptPoll (p : PollRes) : Bool :=
  match p with
  | .avail (.Key key_event) => isInterruptKey key_event
  | _ => false

/-- What one iteration of the watcher loop body does to the flag. -/
inductive WatcherAct
  | stopInterrupt
  | stopFlag
  | keepPolling
  deriving DecidableEq

/-- One iteration of the watcher loop body (lines 42–57): on an
available interrupt key event, store `false` into the flag and break
(lines 48–49); on anything else fall through to the flag check at
line 54 and break without action when the flag is already `false`,
otherwise poll again.  The returned `Bool` is the flag value after the
iteration. -/
def watcherStep (flag : Bool) (p : PollRes) : Bool × WatcherAct :=
  if isInterruptPoll p then (false, .stopInterrupt)
  else if flag then (flag, .keepPolling)
  else (flag, .stopFlag)

/-- The watcher loop (lines 42–57) run over a list of poll outcomes.
Returns the final flag value and how many stores to the shared flag
were performed; the watcher thread is the only code in the program
that ever stores to `running`, and its only store is
`store(false, SeqCst)` at line 48. -/
def watcherRun (flag : Bool) : List PollRes → Bool × Nat
  | [] => (flag, 0)
  | p :: rest =>
      if isInterruptPoll p then (false, 1)
      else if flag then watcherRun flag rest
      else (flag, 0)

/-- Line 37: `Arc::new(AtomicBool::new(true))`. -/
def running_init : Bool := true

/-- Inputs to one iteration of the main loop (lines 71–115).
`flag` is the value `running.load(Ordering::SeqCst)` reads at line 71.
`ascii_art_lines` is the output of the clock read, `strftime_local`
formatting and FIGlet conversion (lines 73–82); these are external
capabilities whose panic-on-failure paths are not part of the claims,
so their result is an input.  `sizeRes` is the `terminal::size()`
result at line 87 (`none` models `Err`).  `paintOk` is the conjunction
of the `Result`s of the `queue`/`flush` calls at lines 95–107 — any of
them failing makes `main` return that error, and commands queued
before the failure are never flushed, so a failed iteration
contributes no visible events.  `elapsed` is
`last_update_time.elapsed()` at line 110, in nanoseconds. -/
structure IterEnv where
  flag : Bool
  ascii_art_lines : List String
  sizeRes : Option (Nat × Nat)
  paintOk : Bool
  elapsed : Nat
  deriving DecidableEq

/-- How the main loop ended. -/
inductive LoopOut
  | stopped
  | failed
  | stillRunning
  deriving DecidableEq

/-- The visible events of one successful loop iteration: the paint
cycle at the centered offset (lines 87–107) followed by the cadence
sleep (lines 110–113). -/
def frameEvents (e : IterEnv) (terminal_width terminal_height : Nat) : List Ev :=
  paintEvents e.ascii_art_lines
    (start_col terminal_width (ascii_art_width e.ascii_art_lines))
    (start_row terminal_height (ascii_art_height e.ascii_art_lines))
  ++ sleepEvents e.elapsed

/-- The events a loop iteration contributes, given its inputs. -/
def iterFrame (e : IterEnv) : List Ev :=
  match e.sizeRes with
  | some (terminal_width, terminal_height) =>
      frameEvents e terminal_width terminal_height
  | none => []

/-- The main loop (lines 71–115) over a list of per-iteration inputs.
The flag is read at the top of each iteration; `false` exits the loop
(`stopped`).  A failing `terminal::size()` or a failing queue/flush
makes the iteration return the error out of the loop (`failed`) — the
`?` operator returns from `main` at that point.  If the input list is
exhausted while the flag still reads `true`, the loop is still running
(`stillRunning`). -/
def loopRun : List IterEnv → List Ev × LoopOut
  | [] => ([], .stillRunning)
  | e :: rest =>
      if e.flag then
        match e.sizeRes with
        | none => ([], .failed)
        | some (terminal_width, terminal_height) =>
            if e.paintOk then
              let out := loopRun rest
              (frameEvents e terminal_width terminal_height ++ out.1, out.2)
            else ([], .failed)
      else ([], .stopped)

/-- `Result`s of the startup calls: `terminal::enable_raw_mode()`
(line 32), `execute!(stdout, cursor::Hide)` (line 33),
`str::from_utf8(COLOSSAL_FONT_BYTES)` (line 63, `.expect` panics on
`Err`) and `FIGfont::from_content` (line 64, `.unwrap` panics on
`Err`). -/
structure StartEnv where
  rawOk : Bool
  hideOk : Bool
  fontUtf8Ok : Bool
  fontLoadOk : Bool
  deriving DecidableEq

/-- `Result`s of the cleanup calls: `execute!(stdout, cursor::Show)`
(line 119), `terminal::disable_raw_mode()` (line 120) and
`execute!(stdout, Clear(ClearType::All))` (line 121). -/
structure CleanupEnv where
  showOk : Bool
  disableOk : Bool
  clearOk : Bool
  deriving DecidableEq

/-- How the process ends.  `exitOk` is `main` returning `Ok(())`
(exit status 0); `exitErr` is `main` returning `Err(..)` (non-zero
status); `panicked` is a panic via `expect`/`unwrap` (non-zero
status); `stillLooping` means the supplied iteration inputs ran out
with the loop still going. -/
inductive Outcome
  | exitOk
  | exitErr
  | panicked
  | stillLooping
  deriving DecidableEq

/-- The process exits with a non-zero status. -/
def exitsNonzero : Outcome → Bool
  | .exitErr => true
  | .panicked => true
  | _ => false

/-- The cleanup sequence (lines 117–121): show the cursor, disable raw
mode, clear the screen, each with `?`, in that order. -/
def cleanupRun (c : CleanupEnv) : List Ev × Bool :=
  if c.showOk then
    if c.disableOk then
      if c.clearOk then ([Ev.showCursor, Ev.disableRaw, Ev.clearAll], true)
      else ([Ev.showCursor, Ev.disableRaw], false)
    else ([Ev.showCursor], false)
  else ([], false)

/-- The whole of `main` (lines 28–124): enable raw mode, hide the
cursor, load the embedded font (panicking on a malformed resource),
run the loop, and — only when the loop exited because the flag read
`false` — run the cleanup sequence.  An `Err` surfaced out of the loop
by `?` returns from `main` immediately, before the cleanup lines
117–121. -/
def runMain (s : StartEnv) (iters : List IterEnv) (c : CleanupEnv) :
    List Ev × Outcome :=
  if s.rawOk then
    if s.hideOk then
      if s.fontUtf8Ok then
        if s.fontLoadOk then
          let lr := loopRun iters
          let pre := Ev.enableRaw :: Ev.hideCursor :: lr.1
          match lr.2 with
          | .stopped =>
              let cr := cleanupRun c
              (pre ++ cr.1, if cr.2 then .exitOk else .exitErr)
          | .failed => (pre, .exitErr)
          | .stillRunning => (pre, .stillLooping)
        else ([Ev.enableRaw, Ev.hideCursor], .panicked)
      else ([Ev.enableRaw, Ev.hideCursor], .panicked)
    else ([Ev.enableRaw], .exitErr)
  else ([], .exitErr)

/-- An iteration whose inputs let it complete normally: flag read
`true`, `terminal::size()` succeeded, all queue/flush calls
succeeded. -/
def goodIter (e : IterEnv) : Prop :=
  e.flag = true ∧ e.sizeRes.isSome = true ∧ e.paintOk = true

instance (e : IterEnv) : Decidable (goodIter e) := by
  unfold goodIter
  infer_instance

/-! ## Helper lemmas -/

theorem foldl_max_le_self (l : List Nat) : ∀ a : Nat, a ≤ l.foldl max a := by
  induction l with
  | nil => intro a; simp
  | cons x xs ih =>
      intro a
      have h : (x :: xs).foldl max a = xs.foldl max (max a x) := rfl
      rw [h]
      exact le_trans (le_max_left a x) (ih (max a x))

theorem foldl_max_le (l : List Nat) :
    ∀ a x : Nat, x ∈ l → x ≤ l.foldl max a := by
  induction l with
  | nil => intro a x hx; cases hx
  | cons y ys ih =>
      intro a x hx
      have h : (y :: ys).foldl max a = ys.foldl max (max a y) := rfl
      rw [h]
      rcases List.mem_cons.mp hx with rfl | hx
      · exact le_trans (le_max_right a x) (foldl_max_le_self ys (max a x))
      · exact ih (max a y) x hx

theorem foldl_max_mem (l : List Nat) :
    ∀ a : Nat, l.foldl max a = a ∨ l.foldl max a ∈ l := by
  induction l with
  | nil => intro a; left; rfl
  | cons y ys ih =>
      intro a
      have h : (y :: ys).foldl max a = ys.foldl max (max a y) := rfl
      rw [h]
      rcases ih (max a y) with h2 | h2
      · rw [h2]
        rcases max_choice a y with hm | hm
        · left; exact hm
        · right; rw [hm]; exact List.mem_cons_self y ys
      · right; exact List.mem_cons_of_mem y h2

theorem maxD_le (l : List Nat) (x : Nat) (hx : x ∈ l) : x ≤ l.max?.getD 0 := by
  cases l with
  | nil => cases hx
  | cons y ys =>
      have h : (y :: ys).max?.getD 0 = ys.foldl max y := rfl
      rw [h]
      rcases List.mem_cons.mp hx with rfl | hx
      · exact foldl_max_le_self ys x
      · exact foldl_max_le ys y x hx

theorem maxD_mem_or_zero (l : List Nat) :
    l.max?.getD 0 = 0 ∨ l.max?.getD 0 ∈ l := by
  cases l with
  | nil => left; rfl
  | cons y ys =>
      have h : (y :: ys).max?.getD 0 = ys.foldl max y := rfl
      rw [h]
      rcases foldl_max_mem ys y with h2 | h2
      · rw [h2]; right; exact List.mem_cons_self y ys
      · right; exact List.mem_cons_of_mem y h2

theorem natCenter_eq_spec (W w : Nat) :
    (((W - w) / 2 : Nat) : Int) = centerSpec W w := by
  unfold centerSpec
  rcases Nat.le_total w W with h | h
  · have h2 : 0 ≤ ((W : Int) - (w : Int)).tdiv 2 :=
      Int.tdiv_nonneg (by omega) (by norm_num)
    rw [max_eq_right h2]
    have h1 : (W : Int) - (w : Int) = ((W - w : Nat) : Int) := by omega
    rw [h1, Int.ofNat_tdiv]
    norm_num
  · have h0 : W - w = 0 := Nat.sub_eq_zero_of_le h
    have h1 : (W : Int) - (w : Int) = -(((w - W : Nat) : Int)) := by omega
    have h3 : ((w - W : Nat) : Int).tdiv 2 = (((w - W) / 2 : Nat) : Int) := by
      rw [Int.ofNat_tdiv]; norm_num
    rw [h0, h1, Int.neg_tdiv, h3]
    have h2 : (0 : Int) ≤ (((w - W) / 2 : Nat) : Int) := Int.ofNat_nonneg _
    rw [max_eq_left (by omega)]
    norm_num

/-! ## Claims -/

/-- Claim C4: for every glyph block of width `w` and height `h` and every
viewport of width `W` and height `H`, the computed placement offset is
`column = max(0, (W − w) / 2)` and `row = max(0, (H − h) / 2)` with
truncating integer division; when the block exceeds the viewport in a
dimension the offset in that dimension is 0; viewport 40×10 with block
60×6 yields offset (0, 2). -/
theorem centering_matches_spec :
    (∀ W w : Nat, ((start_col W w : Nat) : Int) = centerSpec W w)
    ∧ (∀ H h : Nat, ((start_row H h : Nat) : Int) = centerSpec H h)
    ∧ (∀ W w : Nat, W ≤ w → start_col W w = 0)
    ∧ (∀ H h : Nat, H ≤ h → start_row H h = 0)
    ∧ (start_col 40 60 = 0 ∧ start_row 10 6 = 2) :=
  ⟨fun W w => natCenter_eq_spec W w,
   fun H h => natCenter_eq_spec H h,
   fun W w h => by unfold start_col; rw [Nat.sub_eq_zero_of_le h],
   fun H h hh => by unfold start_row; rw [Nat.sub_eq_zero_of_le hh],
   by decide, by decide⟩

/-- Witness for C4 at concrete inputs. -/
theorem centering_matches_spec_witness :
    start_col 40 60 = 0 ∧ start_row 7 9 = 0 :=
  ⟨centering_matches_spec.2.2.1 40 60 (by norm_num),
   centering_matches_spec.2.2.2.1 7 9 (by norm_num)⟩

/-- Claim C7: at the end of every loop iteration, if the elapsed time is
less than the 1-second target cadence the loop suspends for exactly the
remainder `target − elapsed` (a `Nat`, hence never negative); otherwise it
proceeds immediately with no skipped-frame or catch-up logic. -/
theorem cadence_sleep_remainder :
    (∀ elapsed : Nat, elapsed < update_interval →
        sleepEvents elapsed = [Ev.sleepFor (update_interval - elapsed)])
    ∧ (∀ elapsed : Nat, update_interval ≤ elapsed → sleepEvents elapsed = [])
    ∧ (∀ (e : IterEnv) (terminal_width terminal_height : Nat),
        frameEvents e terminal_width terminal_height =
          paintEvents e.ascii_art_lines
            (start_col terminal_width (ascii_art_width e.ascii_art_lines))
            (start_row terminal_height (ascii_art_height e.ascii_art_lines))
          ++ sleepEvents e.elapsed) := by
  refine ⟨fun elapsed h => ?_, fun elapsed h => ?_, fun _ _ _ => rfl⟩
  · simp [sleepEvents, h]
  · simp [sleepEvents, Nat.not_lt.mpr h]

/-- Witness for C7 at concrete elapsed times. -/
theorem cadence_sleep_remainder_witness :
    sleepEvents 400000000 = [Ev.sleepFor 600000000]
    ∧ sleepEvents 1500000000 = [] :=
  ⟨cadence_sleep_remainder.1 400000000 (by norm_num [update_interval]),
   cadence_sleep_remainder.2.1 1500000000 (by norm_num [update_interval])⟩

/-- Claim C10: the glyph-block dimension computation is total for every
rendered string: height is the number of lines and width is the maximum
line length over all lines, defaulting to 0 when the rendering has no
lines; the empty block causes no panic and yields width 0 and height 0.
(The `as u16` truncation is the identity whenever the counts fit in
16 bits, which the hypotheses state.) -/
theorem glyph_dims_total :
    ascii_art_width [] = 0 ∧ ascii_art_height [] = 0
    ∧ (∀ ascii_art_lines : List String, ascii_art_lines.length < 65536 →
        ascii_art_height ascii_art_lines = ascii_art_lines.length)
    ∧ (∀ ascii_art_lines : List String,
        (∀ line ∈ ascii_art_lines, line.length < 65536) →
          (∀ line ∈ ascii_art_lines,
              line.length ≤ ascii_art_width ascii_art_lines)
          ∧ (ascii_art_width ascii_art_lines = 0
              ∨ ∃ line ∈ ascii_art_lines,
                  line.length = ascii_art_width ascii_art_lines)) := by
  refine ⟨rfl, rfl, fun lines h => ?_, fun lines h => ?_⟩
  · simp [ascii_art_height, Nat.mod_eq_of_lt h]
  · have hm : (lines.map String.length).max?.getD 0 < 65536 := by
      rcases maxD_mem_or_zero (lines.map String.length) with h0 | hmem
      · rw [h0]; norm_num
      · rcases List.mem_map.mp hmem with ⟨line, hline, hlen⟩
        rw [← hlen]; exact h line hline
    have hwidth : ascii_art_width lines = (lines.map String.length).max?.getD 0 := by
      simp [ascii_art_width, Nat.mod_eq_of_lt hm]
    constructor
    · intro line hline
      rw [hwidth]
      exact maxD_le _ _ (List.mem_map_of_mem String.length hline)
    · rcases maxD_mem_or_zero (lines.map String.length) with h0 | hmem
      · left; rw [hwidth, h0]
      · right
        rcases List.mem_map.mp hmem with ⟨line, hline, hlen⟩
        exact ⟨line, hline, by rw [hwidth, hlen]⟩

/-- Witness for C10 at a concrete line list. -/
theorem glyph_dims_total_witness :
    ascii_art_height ["ab", "a"] = 2
    ∧ ((∀ line ∈ (["ab", "a"] : List String),
          line.length ≤ ascii_art_width ["ab", "a"])
        ∧ (ascii_art_width ["ab", "a"] = 0
            ∨ ∃ line ∈ (["ab", "a"] : List String),
                line.length = ascii_art_width ["ab", "a"])) :=
  ⟨glyph_dims_total.2.2.1 ["ab", "a"] (by norm_num),
   glyph_dims_total.2.2.2 ["ab", "a"] (by decide)⟩

/-- Claim C9: the interrupt detection accepts any key event whose key
code is the character `c` and whose modifier set contains CONTROL, even
if additional modifiers are present (Ctrl+Shift+C and Ctrl+Alt+C also
match); the match is a superset test on modifiers, not an exact
equality with Ctrl alone. -/
theorem interrupt_superset_modifiers :
    (∀ mods : Nat, KeyModifiers.contains mods KeyModifiers.CONTROL = true →
        isInterruptKey ⟨KeyCode.Char 'c', mods⟩ = true)
    ∧ (∀ extra : Nat,
        isInterruptKey ⟨KeyCode.Char 'c', KeyModifiers.CONTROL ||| extra⟩ = true)
    ∧ isInterruptKey
        ⟨KeyCode.Char 'c', KeyModifiers.CONTROL ||| KeyModifiers.SHIFT⟩ = true
    ∧ isInterruptKey
        ⟨KeyCode.Char 'c', KeyModifiers.CONTROL ||| KeyModifiers.ALT⟩ = true
    ∧ KeyModifiers.CONTROL ||| KeyModifiers.SHIFT ≠ KeyModifiers.CONTROL
    ∧ isInterruptKey ⟨KeyCode.Char 'c', KeyModifiers.SHIFT⟩ = false := by
  have hsup : ∀ mods : Nat,
      KeyModifiers.contains mods KeyModifiers.CONTROL = true →
      isInterruptKey ⟨KeyCode.Char 'c', mods⟩ = true := by
    intro mods h
    simp [isInterruptKey, h]
  have hb : ∀ extra : Nat,
      KeyModifiers.contains (KeyModifiers.CONTROL ||| extra)
        KeyModifiers.CONTROL = true := by
    intro extra
    have hx : (KeyModifiers.CONTROL ||| extra) &&& KeyModifiers.CONTROL
        = KeyModifiers.CONTROL := by
      apply Nat.eq_of_testBit_eq
      intro i
      simp only [Nat.testBit_and, Nat.testBit_or]
      cases h1 : Nat.testBit KeyModifiers.CONTROL i <;>
        cases h2 : Nat.testBit extra i <;> simp [h1, h2]
    simp [KeyModifiers.contains, hx]
  exact ⟨hsup, fun extra => hsup _ (hb extra), hsup _ (by decide),
    hsup _ (by decide), by decide, by decide⟩

/-- Witness for C9: Ctrl+Alt modifiers (bit set `0b110`) still match. -/
theorem interrupt_superset_modifiers_witness :
    isInterruptKey ⟨KeyCode.Char 'c', 6⟩ = true :=
  interrupt_superset_modifiers.1 6 (by decide)

/-- Claim C5: the shared running flag is initialized to `true`, is
written `false` at most once (only by the watcher, on the interrupt
combination), is never set back to `true`, and once `false` is never
observed `true` again. -/
theorem running_flag_monotone :
    running_init = true
    ∧ (∀ (flag : Bool) (p : PollRes), flag = false →
        (watcherStep flag p).1 = false)
    ∧ (∀ (flag : Bool) (p : PollRes), (watcherStep flag p).1 = true →
        flag = true)
    ∧ (∀ (flag : Bool) (polls : List PollRes), (watcherRun flag polls).2 ≤ 1)
    ∧ (∀ polls : List PollRes, (∀ p ∈ polls, isInterruptPoll p = false) →
        watcherRun true polls = (true, 0)) := by
  refine ⟨rfl, ?_, ?_, ?_, ?_⟩
  · intro flag p h
    subst h
    unfold watcherStep
    split
    · rfl
    · rfl
  · intro flag p h
    cases flag
    · exfalso
      revert h
      unfold watcherStep
      split <;> simp
    · rfl
  · intro flag polls
    induction polls generalizing flag with
    | nil => simp [watcherRun]
    | cons p rest ih =>
        by_cases h : isInterruptPoll p = true
        · simp [watcherRun, h]
        · cases flag <;> simp [watcherRun, h, ih]
  · intro polls h
    induction polls with
    | nil => rfl
    | cons p rest ih =>
        have hp := h p (List.mem_cons_self p rest)
        have hr : watcherRun true (p :: rest) = watcherRun true rest := by
          simp [watcherRun, hp]
        rw [hr]
        exact ih fun q hq => h q (List.mem_cons_of_mem p hq)

/-- Witness for C5 at concrete flag values and poll lists. -/
theorem running_flag_monotone_witness :
    (watcherStep false PollRes.timeout).1 = false
    ∧ watcherRun true [PollRes.timeout, PollRes.timeout] = (true, 0) :=
  ⟨running_flag_monotone.2.1 false PollRes.timeout rfl,
   running_flag_monotone.2.2.2.2 [PollRes.timeout, PollRes.timeout]
     (by decide)⟩

/-- Claim C6: one watcher iteration sets the running flag to `false` and
terminates the task exactly when the available event matches Ctrl+C;
every other poll outcome leaves the flag unchanged and is silently
discarded, and the watcher terminates without action when it observes
the flag already `false`. -/
theorem watcher_iteration_spec :
    (∀ (flag : Bool) (p : PollRes),
        (watcherStep flag p).2 = WatcherAct.stopInterrupt ↔
          isInterruptPoll p = true)
    ∧ (∀ (flag : Bool) (p : PollRes), isInterruptPoll p = true →
        watcherStep flag p = (false, WatcherAct.stopInterrupt))
    ∧ (∀ (flag : Bool) (p : PollRes), isInterruptPoll p = false →
        (watcherStep flag p).1 = flag)
    ∧ (∀ p : PollRes, isInterruptPoll p = false →
        watcherStep false p = (false, WatcherAct.stopFlag))
    ∧ (∀ p : PollRes, isInterruptPoll p = false →
        watcherStep true p = (true, WatcherAct.keepPolling)) := by
  refine ⟨?_, ?_, ?_, ?_, ?_⟩
  · intro flag p
    by_cases h : isInterruptPoll p = true
    · simp [watcherStep, h]
    · cases flag <;> simp [watcherStep, h]
  · intro flag p h
    simp [watcherStep, h]
  · intro flag p h
    cases flag <;> simp [watcherStep, h]
  · intro p h
    simp [watcherStep, h]
  · intro p h
    simp [watcherStep, h]

/-- Witness for C6: a Ctrl+C key event stores `false` and stops; an
ordinary key event is discarded; a watcher seeing the flag already
`false` stops without action. -/
theorem watcher_iteration_spec_witness :
    watcherStep true (PollRes.avail (CTEvent.Key ⟨KeyCode.Char 'c', 2⟩))
      = (false, WatcherAct.stopInterrupt)
    ∧ watcherStep true (PollRes.avail (CTEvent.Key ⟨KeyCode.Char 'x', 2⟩))
      = (true, WatcherAct.keepPolling)
    ∧ watcherStep false PollRes.timeout = (false, WatcherAct.stopFlag) :=
  ⟨watcher_iteration_spec.2.1 true _ (by decide),
   watcher_iteration_spec.2.2.2.2 _ (by decide),
   watcher_iteration_spec.2.2.2.1 _ (by decide)⟩

/-- Whether an event is the `stdout.flush()` effect. -/
def isFlushEv : Ev → Bool
  | .flushOut => true
  | _ => false

theorem paintLines_eq_enum (ls : List String) :
    ∀ col row : Nat,
      paintLines col row ls =
        (ls.enum.map fun p =>
          [Ev.moveTo col (row + p.1), Ev.printStyled p.2 TColor.green]).flatten := by
  induction ls with
  | nil => intro col row; rfl
  | cons line rest ih =>
      intro col row
      have h1 : (line :: rest).enum
          = (0, line) :: rest.enum.map (Prod.map (fun x => x + 1) id) := by
        rw [List.enum_cons, List.map_fst_add_enum_eq_enumFrom]
      rw [h1]
      simp only [List.map_cons, List.flatten_cons, List.map_map]
      have h2 : (fun p : Nat × String =>
            [Ev.moveTo col (row + p.1), Ev.printStyled p.2 TColor.green])
            ∘ Prod.map (fun x => x + 1) id
          = fun p : Nat × String =>
            [Ev.moveTo col ((row + 1) + p.1), Ev.printStyled p.2 TColor.green] := by
        funext p
        rcases p with ⟨i, s⟩
        simp only [Function.comp_apply, Prod.map_apply, id_eq]
        congr 2
        omega
      rw [h2, ← ih col (row + 1)]
      simp [paintLines]

theorem paintLines_countP_flush (ls : List String) :
    ∀ col row : Nat, (paintLines col row ls).countP isFlushEv = 0 := by
  induction ls with
  | nil => intro col row; rfl
  | cons line rest ih =>
      intro col row
      simp [paintLines, List.countP_cons, isFlushEv, ih]

/-- Claim C8: each paint cycle issues its terminal operations in this
exact order — a full-viewport clear first, then line `i` of the glyph
block at position `(column, row + i)` in the single emphasis color
green, and exactly one flush at the very end. -/
theorem paint_cycle_order :
    ∀ (ascii_art_lines : List String) (col row : Nat),
      paintEvents ascii_art_lines col row =
        [Ev.clearAll]
          ++ (ascii_art_lines.enum.map fun p =>
              [Ev.moveTo col (row + p.1), Ev.printStyled p.2 TColor.green]).flatten
          ++ [Ev.flushOut]
      ∧ (paintEvents ascii_art_lines col row).head? = some Ev.clearAll
      ∧ (paintEvents ascii_art_lines col row).getLast? = some Ev.flushOut
      ∧ (paintEvents ascii_art_lines col row).countP isFlushEv = 1 := by
  intro lines col row
  refine ⟨?_, rfl, ?_, ?_⟩
  · rw [paintEvents, paintLines_eq_enum]
    simp
  · have h : paintEvents lines col row
        = (Ev.clearAll :: paintLines col row lines) ++ [Ev.flushOut] := by
      simp [paintEvents]
    rw [h, List.getLast?_concat]
  · simp [paintEvents, List.countP_cons, List.countP_append,
      paintLines_countP_flush, isFlushEv]

/-- Whether an event is the `cursor::Show` effect. -/
def isShowCursorEv : Ev → Bool
  | .showCursor => true
  | _ => false

/-- Whether an event is the `disable_raw_mode` effect. -/
def isDisableRawEv : Ev → Bool
  | .disableRaw => true
  | _ => false

theorem paintLines_countP_zero (p : Ev → Bool)
    (hm : ∀ c r, p (Ev.moveTo c r) = false)
    (hp : ∀ s c, p (Ev.printStyled s c) = false) :
    ∀ (ls : List String) (col row : Nat),
      (paintLines col row ls).countP p = 0 := by
  intro ls
  induction ls with
  | nil => intro col row; rfl
  | cons line rest ih =>
      intro col row
      simp [paintLines, List.countP_cons, hm, hp, ih]

theorem sleepEvents_countP_zero (p : Ev → Bool)
    (hs : ∀ n, p (Ev.sleepFor n) = false) (elapsed : Nat) :
    (sleepEvents elapsed).countP p = 0 := by
  unfold sleepEvents
  split <;> simp [List.countP_cons, hs]

theorem iterFrame_countP_zero (p : Ev → Bool)
    (hm : ∀ c r, p (Ev.moveTo c r) = false)
    (hp : ∀ s c, p (Ev.printStyled s c) = false)
    (hc : p Ev.clearAll = false) (hf : p Ev.flushOut = false)
    (hs : ∀ n, p (Ev.sleepFor n) = false) (e : IterEnv) :
    (iterFrame e).countP p = 0 := by
  cases hsz : e.sizeRes with
  | none => simp [iterFrame, hsz]
  | some wh =>
      obtain ⟨w, h⟩ := wh
      simp [iterFrame, hsz, frameEvents, paintEvents, List.countP_append,
        List.countP_cons, hc, hf, paintLines_countP_zero p hm hp,
        sleepEvents_countP_zero p hs]

theorem frames_countP_zero (p : Ev → Bool)
    (hm : ∀ c r, p (Ev.moveTo c r) = false)
    (hp : ∀ s c, p (Ev.printStyled s c) = false)
    (hc : p Ev.clearAll = false) (hf : p Ev.flushOut = false)
    (hs : ∀ n, p (Ev.sleepFor n) = false) :
    ∀ pre : List IterEnv, ((pre.map iterFrame).flatten).countP p = 0 := by
  intro pre
  induction pre with
  | nil => rfl
  | cons x rest ih =>
      simp [List.countP_append, ih,
        iterFrame_countP_zero p hm hp hc hf hs x]

theorem loopRun_stop (pre : List IterEnv) (e : IterEnv) (rest : List IterEnv)
    (hpre : ∀ x ∈ pre, goodIter x) (hflag : e.flag = false) :
    loopRun (pre ++ e :: rest) = ((pre.map iterFrame).flatten, LoopOut.stopped) := by
  induction pre with
  | nil => simp [loopRun, hflag]
  | cons x pre ih =>
      obtain ⟨hxf, hxs, hxp⟩ := hpre x (List.mem_cons_self x pre)
      obtain ⟨wh, hsz⟩ := Option.isSome_iff_exists.mp hxs
      obtain ⟨w, h⟩ := wh
      have hrec := ih fun y hy => hpre y (List.mem_cons_of_mem x hy)
      simp only [List.cons_append, loopRun, hxf, hsz, hxp, if_true,
        List.append_eq]
      rw [hrec]
      simp [iterFrame, hsz]

/-- Claim C2: when the shared running flag reads `false` at the top of a
loop iteration, the loop stops (no events from that or any later
iteration appear), the Release sequence runs exactly once — cursor
shown, raw mode disabled, screen cleared, in that order — and the
process terminates with a success status. -/
theorem stop_runs_release_once (pre : List IterEnv) (e : IterEnv)
    (rest : List IterEnv)
    (hpre : ∀ x ∈ pre, goodIter x) (hflag : e.flag = false) :
    runMain ⟨true, true, true, true⟩ (pre ++ e :: rest) ⟨true, true, true⟩
      = (Ev.enableRaw :: Ev.hideCursor :: ((pre.map iterFrame).flatten
          ++ [Ev.showCursor, Ev.disableRaw, Ev.clearAll]), Outcome.exitOk)
    ∧ (runMain ⟨true, true, true, true⟩ (pre ++ e :: rest)
        ⟨true, true, true⟩).1.countP isShowCursorEv = 1
    ∧ (runMain ⟨true, true, true, true⟩ (pre ++ e :: rest)
        ⟨true, true, true⟩).1.countP isDisableRawEv = 1 := by
  have hloop := loopRun_stop pre e rest hpre hflag
  have hrun : runMain ⟨true, true, true, true⟩ (pre ++ e :: rest)
      ⟨true, true, true⟩
      = (Ev.enableRaw :: Ev.hideCursor :: ((pre.map iterFrame).flatten
          ++ [Ev.showCursor, Ev.disableRaw, Ev.clearAll]), Outcome.exitOk) := by
    simp [runMain, hloop, cleanupRun]
  refine ⟨hrun, ?_, ?_⟩
  · rw [hrun]
    simp [List.countP_cons, List.countP_append, isShowCursorEv,
      frames_countP_zero isShowCursorEv (fun _ _ => rfl) (fun _ _ => rfl)
        rfl rfl (fun _ => rfl) pre]
  · rw [hrun]
    simp [List.countP_cons, List.countP_append, isDisableRawEv,
      frames_countP_zero isDisableRawEv (fun _ _ => rfl) (fun _ _ => rfl)
        rfl rfl (fun _ => rfl) pre]

/-- Witness for C2: one successful frame, then the flag reads `false`. -/
theorem stop_runs_release_once_witness :
    runMain ⟨true, true, true, true⟩
        (([⟨true, ["AB"], some (80, 24), true, 0⟩] : List IterEnv)
          ++ ⟨false, [], none, true, 0⟩ :: [])
        ⟨true, true, true⟩
      = (Ev.enableRaw :: Ev.hideCursor ::
          ((([⟨true, ["AB"], some (80, 24), true, 0⟩] : List IterEnv).map
              iterFrame).flatten
            ++ [Ev.showCursor, Ev.disableRaw, Ev.clearAll]), Outcome.exitOk)
    ∧ (runMain ⟨true, true, true, true⟩
        (([⟨true, ["AB"], some (80, 24), true, 0⟩] : List IterEnv)
          ++ ⟨false, [], none, true, 0⟩ :: [])
        ⟨true, true, true⟩).1.countP isShowCursorEv = 1
    ∧ (runMain ⟨true, true, true, true⟩
        (([⟨true, ["AB"], some (80, 24), true, 0⟩] : List IterEnv)
          ++ ⟨false, [], none, true, 0⟩ :: [])
        ⟨true, true, true⟩).1.countP isDisableRawEv = 1 :=
  stop_runs_release_once [⟨true, ["AB"], some (80, 24), true, 0⟩]
    ⟨false, [], none, true, 0⟩ [] (by decide) rfl

/-- Claim C1, evaluated at the failing inputs: when `terminal::size()`
fails (first conjunct) or a queue/flush of the paint cycle fails (last
conjunct) during a loop iteration, the error is surfaced out of the
loop and the process exits with a non-zero status — but, contrary to
the claim, the Release sequence does NOT execute: the trace ends
without `cursor::Show` or `disable_raw_mode`, because the `?` operator
at lines 87–107 returns from `main` before the cleanup at lines
117–121. -/
theorem loop_failure_skips_release :
    runMain ⟨true, true, true, true⟩ [⟨true, [], none, true, 0⟩]
        ⟨true, true, true⟩
      = ([Ev.enableRaw, Ev.hideCursor], Outcome.exitErr)
    ∧ Ev.showCursor ∉ (runMain ⟨true, true, true, true⟩
        [⟨true, [], none, true, 0⟩] ⟨true, true, true⟩).1
    ∧ Ev.disableRaw ∉ (runMain ⟨true, true, true, true⟩
        [⟨true, [], none, true, 0⟩] ⟨true, true, true⟩).1
    ∧ runMain ⟨true, true, true, true⟩ [⟨true, ["AB"], some (80, 24), false, 0⟩]
        ⟨true, true, true⟩
      = ([Ev.enableRaw, Ev.hideCursor], Outcome.exitErr) := by
  decide

/-- Counterexample for C3: with a malformed font resource (the
`str::from_utf8` at line 63 fails, so `.expect` panics) the process
does exit with a non-zero status, but raw mode has already been
entered (line 32) and is never left — refuting "either no
screen/terminal state has been altered yet or the terminal is restored
before the failure propagates". -/
theorem font_failure_unrestored :
    (runMain ⟨true, true, false, true⟩ [] ⟨true, true, true⟩).2
      = Outcome.panicked
    ∧ exitsNonzero (runMain ⟨true, true, false, true⟩ []
        ⟨true, true, true⟩).2 = true
    ∧ ¬(Ev.enableRaw ∉ (runMain ⟨true, true, false, true⟩ []
          ⟨true, true, true⟩).1
        ∨ Ev.disableRaw ∈ (runMain ⟨true, true, false, true⟩ []
          ⟨true, true, true⟩).1) := by
  decide

/-- Claim C3 as amended: every unrecoverable startup failure exits with
a non-zero status; a raw-mode acquisition failure alters no terminal
state, but a malformed font resource (invalid UTF-8 or unparsable
FIGfont) panics only after raw mode is entered and the cursor hidden,
and the terminal is NOT restored before the failure propagates.  (A
failure of the `cursor::Hide` execute, after raw mode, likewise exits
non-zero without restoring raw mode.) -/
theorem startup_failure_exit (s : StartEnv) (iters : List IterEnv)
    (c : CleanupEnv) :
    (s.rawOk = false → runMain s iters c = ([], Outcome.exitErr))
    ∧ (s.rawOk = true → s.hideOk = true → s.fontUtf8Ok = false →
        runMain s iters c = ([Ev.enableRaw, Ev.hideCursor], Outcome.panicked))
    ∧ (s.rawOk = true → s.hideOk = true → s.fontUtf8Ok = true →
        s.fontLoadOk = false →
        runMain s iters c = ([Ev.enableRaw, Ev.hideCursor], Outcome.panicked))
    ∧ (s.rawOk = true → s.hideOk = false →
        runMain s iters c = ([Ev.enableRaw], Outcome.exitErr)) := by
  obtain ⟨r, hd, u, lo⟩ := s
  refine ⟨?_, ?_, ?_, ?_⟩
  · intro h1
    simp only at h1
    simp [runMain, h1]
  · intro h1 h2 h3
    simp only at h1 h2 h3
    simp [runMain, h1, h2, h3]
  · intro h1 h2 h3 h4
    simp only at h1 h2 h3 h4
    simp [runMain, h1, h2, h3, h4]
  · intro h1 h2
    simp only at h1 h2
    simp [runMain, h1, h2]

/-- Witness for C3 (amended), at concrete startup inputs. -/
theorem startup_failure_exit_witness :
    runMain ⟨false, true, true, true⟩ [] ⟨true, true, true⟩
      = ([], Outcome.exitErr)
    ∧ runMain ⟨true, true, false, true⟩ [⟨true, [], some (1, 1), true, 0⟩]
        ⟨false, false, false⟩
      = ([Ev.enableRaw, Ev.hideCursor], Outcome.panicked)
    ∧ runMain ⟨true, true, true, false⟩ [] ⟨true, true, true⟩
      = ([Ev.enableRaw, Ev.hideCursor], Outcome.panicked)
    ∧ runMain ⟨true, false, true, true⟩ [] ⟨true, true, true⟩
      = ([Ev.enableRaw], Outcome.exitErr) :=
  ⟨(startup_failure_exit ⟨false, true, true, true⟩ [] ⟨true, true, true⟩).1 rfl,
   (startup_failure_exit ⟨true, true, false, true⟩
      [⟨true, [], some (1, 1), true, 0⟩] ⟨false, false, false⟩).2.1 rfl rfl rfl,
   (startup_failure_exit ⟨true, true, true, false⟩ []
      ⟨true, true, true⟩).2.2.1 rfl rfl rfl rfl,
   (startup_failure_exit ⟨true, false, true, true⟩ []
      ⟨true, true, true⟩).2.2.2 rfl rfl⟩

end TerminalClock
